import Mathlib

/-!
Verification of the thought-filter plugin (`src/index.ts`).

The plugin source is embedded shallowly: message text is `List Char`,
JavaScript `RegExp` patterns become a small regular-expression type with a
Brzozowski-derivative matcher, and the two `message_sending` hooks (the
scoring hook of the v2.0 plugin and the line-filter hook of the v1 plugin)
become pure functions from channel id and optional content to an optional
verdict.  All pattern registries (`SIGNALS`, `THOUGHT_PATTERNS`,
`SAFE_PATTERNS`) are transcribed rule by rule from the source.
-/

namespace ThoughtFilter

/-! ## Regular expressions

JavaScript `RegExp` values are modelled by the following syntax.  `cls`
matches a single character satisfying the predicate (character classes and
literals), `star` is Kleene star.  All patterns in the source carry the `i`
flag and none carries `m`, so matching lowercases the subject first and the
patterns below are transcribed in lowercase; `^`/`$` anchor at the start/end
of the whole subject, which the transcription realises by padding
unanchored pattern ends with `[anything]*`.
-/

inductive Regex : Type where
  | emptyset : Regex
  | eps : Regex
  | cls : (Char → Bool) → Regex
  | cat : Regex → Regex → Regex
  | alt : Regex → Regex → Regex
  | star : Regex → Regex

/-- Alternation that discards the impossible branch (semantics-preserving
simplification used by the derivative engine). -/
def Regex.mkAlt : Regex → Regex → Regex
  | .emptyset, r => r
  | r, .emptyset => r
  | r, s => .alt r s

/-- Concatenation simplifying the absorbing and neutral elements
(semantics-preserving simplification used by the derivative engine). -/
def Regex.mkCat : Regex → Regex → Regex
  | .emptyset, _ => .emptyset
  | _, .emptyset => .emptyset
  | .eps, r => r
  | r, .eps => r
  | r, s => .cat r s

/-- Does the regular expression accept the empty word? -/
def Regex.nullable : Regex → Bool
  | .emptyset => false
  | .eps => true
  | .cls _ => false
  | .cat r s => r.nullable && s.nullable
  | .alt r s => r.nullable || s.nullable
  | .star _ => true

/-- Brzozowski derivative of a regular expression by one character. -/
def Regex.deriv : Regex → Char → Regex
  | .emptyset, _ => .emptyset
  | .eps, _ => .emptyset
  | .cls f, c => if f c then .eps else .emptyset
  | .cat r s, c =>
    if r.nullable then .mkAlt (.mkCat (r.deriv c) s) (s.deriv c)
    else .mkCat (r.deriv c) s
  | .alt r s, c => .mkAlt (r.deriv c) (s.deriv c)
  | .star r, c => .mkCat (r.deriv c) (.star r)

/-- Derivative-based acceptance: the word is accepted iff the iterated
derivative is nullable. -/
def Regex.accepts (r : Regex) (s : List Char) : Bool :=
  (s.foldl Regex.deriv r).nullable

/-! ## Character utilities -/

/-- Case folding used by the `i` flag, restricted to the alphabets that the
source patterns and scenarios use (ASCII plus the Spanish accented
letters). -/
def lowerChar (c : Char) : Char :=
  if 'A' ≤ c ∧ c ≤ 'Z' then Char.ofNat (c.toNat + 32)
  else if c = 'Á' then 'á'
  else if c = 'É' then 'é'
  else if c = 'Í' then 'í'
  else if c = 'Ó' then 'ó'
  else if c = 'Ú' then 'ú'
  else if c = 'Ñ' then 'ñ'
  else if c = 'Ü' then 'ü'
  else c

/-- The JavaScript whitespace set (as recognised by `String.prototype.trim`
and by the `\s` class), restricted to the code points that can occur here. -/
def jsWs (c : Char) : Bool :=
  c = ' ' || c = '\t' || c = '\n' || c = '\r' ||
  c = '\x0b' || c = '\x0c' || c = ' ' || c = '﻿'

/-! ## Regex construction helpers (transcription combinators) -/

/-- A single literal character. -/
def chr (c : Char) : Regex := .cls (fun x => x = c)

/-- A literal string. -/
def str (s : String) : Regex :=
  s.data.foldr (fun c r => .cat (chr c) r) .eps

/-- `(?:a|b|…)` -/
def alts : List Regex → Regex
  | [] => .emptyset
  | [r] => r
  | r :: rs => .alt r (alts rs)

/-- `r?` -/
def opt (r : Regex) : Regex := .alt r .eps

/-- `r+` -/
def plus (r : Regex) : Regex := .cat r (.star r)

/-- `r{n}` -/
def repN (r : Regex) : Nat → Regex
  | 0 => .eps
  | n + 1 => .cat r (repN r n)

/-- `r{n,}` -/
def atLeast (r : Regex) (n : Nat) : Regex := .cat (repN r n) (.star r)

/-- `(r?){n}`, i.e. between `0` and `n` repetitions. -/
def upTo (r : Regex) : Nat → Regex
  | 0 => .eps
  | n + 1 => .cat (opt r) (upTo r n)

/-- `r{n,m}` -/
def between (r : Regex) (n m : Nat) : Regex := .cat (repN r n) (upTo r (m - n))

/-- `[^]` — any character at all (used for padding around unanchored
patterns; unlike `.` it also matches a line break). -/
def anyCh : Regex := .cls (fun _ => true)

/-- `.` — any character except a line break (no `s` flag in the source). -/
def dot : Regex := .cls (fun c => !(c = '\n'))

/-- `\d` -/
def digitCls : Regex := .cls (fun c => '0' ≤ c && c ≤ '9')

/-- `\w` after case folding: `[a-z0-9_]`. -/
def wordCls : Regex := .cls (fun c => ('a' ≤ c && c ≤ 'z') || ('0' ≤ c && c ≤ '9') || c = '_')

/-- `\s` -/
def wsCls : Regex := .cls jsWs

/-- A character out of an explicit list (for classes such as `[ií]`). -/
def oneOf (cs : List Char) : Regex := .cls (fun c => cs.contains c)

/-- `RegExp.test` for a pattern anchored on both sides (`/^…$/`). -/
def anchBoth (r : Regex) : Regex := r

/-- `RegExp.test` for a start-anchored pattern (`/^…/`): the rest of the
subject is arbitrary. -/
def anchStart (r : Regex) : Regex := .cat r (.star anyCh)

/-- `RegExp.test` for an end-anchored pattern (`/…$/`): anything may precede
the match. -/
def anchEnd (r : Regex) : Regex := .cat (.star anyCh) r

/-- `RegExp.test` for an unanchored pattern: the match may occur anywhere in
the subject. -/
def unanch (r : Regex) : Regex := .cat (.star anyCh) (.cat r (.star anyCh))

/-- `pattern.test(s)` for the case-insensitive patterns of the source: the
subject is case folded and the (already lowercase, anchoring-adjusted)
pattern must accept it. -/
def reTest (r : Regex) (s : List Char) : Bool :=
  r.accepts (s.map lowerChar)

/-! ## Line handling

`content.split("\n")`, `Array.prototype.join("\n")` and
`String.prototype.trim` from `filterThoughts` / `isThoughtLine`.
-/

/-- `s.split("\n")` — never returns the empty list; splitting the empty
string yields one empty line. -/
def splitNl : List Char → List (List Char)
  | [] => [[]]
  | c :: cs =>
    match splitNl cs with
    | [] => [[c]]
    | l :: ls => if c = '\n' then [] :: l :: ls else (c :: l) :: ls

/-- `lines.join("\n")` -/
def joinNl : List (List Char) → List Char
  | [] => []
  | [l] => l
  | l :: ls => l ++ '\n' :: joinNl ls

/-- `s.trim()` — drop JavaScript whitespace from both ends. -/
def jsTrim (s : List Char) : List Char :=
  List.rdropWhile jsWs (List.dropWhile jsWs s)

/-- Append `x` to the last element of a list of lines (helper used to state
how `splitNl` acts on a snoc; not part of the source). -/
def appendLast (x : List Char) : List (List Char) → List (List Char)
  | [] => [x]
  | [l] => [l ++ x]
  | l :: ls => l :: appendLast x ls

/-! ## Signal registry (v2.0 scoring plugin)

Each entry transcribes one element of the `SIGNALS` array, in source order.
The transcription lowercases every literal (the subject is case folded
before matching) and makes the JavaScript search semantics explicit through
`anchStart` / `anchEnd` / `unanch` / `anchBoth`.
-/

/-- The apostrophe character (used by the English patterns). -/
def apos : Char := Char.ofNat 39

/-- Translation of a leading `(?:^|\. )` group under `RegExp.test`: either
the group body matches at the start of the subject, or it occurs anywhere
preceded by a period and a space. -/
def startOrDot (g : Regex) : Regex :=
  .alt (anchStart g) (unanch (.cat (str ". ") g))

/-- Translation of a leading `(?:^|\s)` group under `RegExp.test`. -/
def startOrWs (g : Regex) : Regex :=
  .alt (anchStart g) (unanch (.cat wsCls g))

/-- One weighted signal of the scoring engine: `{ pattern, score, label }`. -/
structure Signal : Type where
  pattern : Regex
  score : Int
  label : List Char

/-- Class `[A-ZÁÉÍÓÚÑa-záéíóúñ]` after case folding. -/
def nameFirstCls : Regex :=
  .cls (fun c => ('a' ≤ c && c ≤ 'z') || c = 'á' || c = 'é' || c = 'í' ||
    c = 'ó' || c = 'ú' || c = 'ñ')

/-- Class `[\wÁÉÍÓÚÑáéíóúñ\s()\d]` after case folding. -/
def nameBodyCls : Regex :=
  .cls (fun c => ('a' ≤ c && c ≤ 'z') || ('0' ≤ c && c ≤ '9') || c = '_' ||
    c = 'á' || c = 'é' || c = 'í' || c = 'ó' || c = 'ú' || c = 'ñ' ||
    jsWs c || c = '(' || c = ')')

/-- The `SIGNALS` array of the source, entry by entry in source order. -/
def SIGNALS : List Signal := [
  -- /^(?:Voy a |Necesito |Tengo que |Debo )/i, 40
  ⟨anchStart (alts [str "voy a ", str "necesito ", str "tengo que ", str "debo "]),
    40, ("monologue-start").data⟩,
  -- /(?:No tengo contexto|Sin contexto|No reconozco|Me falta)/i, 45
  ⟨unanch (alts [str "no tengo contexto", str "sin contexto", str "no reconozco",
    str "me falta"]), 45, ("no-context").data⟩,
  -- /(?:Sigue sin (?:tener )?sentido|No (?:me )?queda claro)/i, 40
  ⟨unanch (alts [.cat (str "sigue sin ") (.cat (opt (str "tener ")) (str "sentido")),
    .cat (str "no ") (.cat (opt (str "me ")) (str "queda claro"))]),
    40, ("confusion").data⟩,
  -- /^(?:Ahora (?:lo pillo|entiendo|veo|comprendo))/i, 40
  ⟨anchStart (.cat (str "ahora ")
    (alts [str "lo pillo", str "entiendo", str "veo", str "comprendo"])),
    40, ("realization").data⟩,
  -- /(?:aviso|pregunto|consulto|digo|paso|notifico|informo) a (?:Efren|Jose|Efrén|José)/i, 40
  ⟨unanch (.cat (alts [str "aviso", str "pregunto", str "consulto", str "digo",
      str "paso", str "notifico", str "informo"])
    (.cat (str " a ") (alts [str "efren", str "jose", str "efrén", str "josé"]))),
    40, ("mentions-boss").data⟩,
  -- /(?:Efren|Jose|Efrén|José) (?:está|estará|no está|anda|dice|dijo|me dijo|pregunta|pide|quiere)/i, 30
  ⟨unanch (.cat (alts [str "efren", str "jose", str "efrén", str "josé"])
    (.cat (str " ") (alts [str "está", str "estará", str "no está", str "anda",
      str "dice", str "dijo", str "me dijo", str "pregunta", str "pide", str "quiere"]))),
    30, ("references-boss").data⟩,
  -- /(?:le (?:paso|pregunto|digo|comento) a (?:Efren|Jose))/i, 40
  ⟨unanch (.cat (str "le ") (.cat (alts [str "paso", str "pregunto", str "digo",
    str "comento"]) (.cat (str " a ") (alts [str "efren", str "jose"])))),
    40, ("action-toward-boss").data⟩,
  -- /parte #?\d{3,}/i, 30
  ⟨unanch (.cat (str "parte ") (.cat (opt (chr '#')) (atLeast digitCls 3))),
    30, ("part-id").data⟩,
  -- /pedido #?\d{3,}/i, 30
  ⟨unanch (.cat (str "pedido ") (.cat (opt (chr '#')) (atLeast digitCls 3))),
    30, ("order-id").data⟩,
  -- /(?:no es cliente|es (?:un )?(?:tema|asunto) )/i, 30
  ⟨unanch (alts [str "no es cliente",
    .cat (str "es ") (.cat (opt (str "un "))
      (.cat (alts [str "tema", str "asunto"]) (str " ")))]),
    30, ("internal-classification").data⟩,
  -- /(?:preguntando por|pregunta por|pide que le|solicita que)/i, 20
  ⟨unanch (alts [str "preguntando por", str "pregunta por", str "pide que le",
    str "solicita que"]), 20, ("third-person-narration").data⟩,
  -- /(?:Dice que |dice que (?:viene|va|quiere|necesita|pasa|llama|trae))/i, 25
  ⟨unanch (alts [str "dice que ",
    .cat (str "dice que ") (alts [str "viene", str "va", str "quiere",
      str "necesita", str "pasa", str "llama", str "trae"])]),
    25, ("relays-client-speech").data⟩,
  -- /(?:que (?:estamos|estoy) (?:montando|reparando|arreglando|esperando|tramitando|gestionando|preparando))/i, 20
  ⟨unanch (.cat (str "que ") (.cat (alts [str "estamos", str "estoy"])
    (.cat (str " ") (alts [str "montando", str "reparando", str "arreglando",
      str "esperando", str "tramitando", str "gestionando", str "preparando"])))),
    20, ("work-in-progress").data⟩,
  -- /^Es [A-ZÁÉÍÓÚÑa-záéíóúñ][\wÁÉÍÓÚÑáéíóúñ\s()\d]{1,50},/i, 35
  ⟨anchStart (.cat (str "es ") (.cat nameFirstCls
    (.cat (between nameBodyCls 1 50) (chr ',')))),
    35, ("client-identification").data⟩,
  -- /(?:comercial\/contable|tema (?:comercial|contable|administrativo|interno))/i, 25
  ⟨unanch (alts [str "comercial/contable",
    .cat (str "tema ") (alts [str "comercial", str "contable",
      str "administrativo", str "interno"])]),
    25, ("internal-vocab").data⟩,
  -- /(?:fuera de (?:mi|su|nuestro) (?:competencia|alcance|ámbito))/i, 25
  ⟨unanch (.cat (str "fuera de ") (.cat (alts [str "mi", str "su", str "nuestro"])
    (.cat (str " ") (alts [str "competencia", str "alcance", str "ámbito"])))),
    25, ("scope-assessment").data⟩,
  -- /(?:no (?:tengo|tiene) ficha|sin ficha|sin historial)/i, 35
  ⟨unanch (alts [.cat (str "no ") (.cat (alts [str "tengo", str "tiene"]) (str " ficha")),
    str "sin ficha", str "sin historial"]), 35, ("no-file").data⟩,
  -- /(?:en (?:la|el) (?:BD|base de datos|sistema|CRM|ERP)|algún parte (?:abierto|pendiente|activo))/i, 20
  ⟨unanch (alts [.cat (str "en ") (.cat (alts [str "la", str "el"])
      (.cat (str " ") (alts [str "bd", str "base de datos", str "sistema",
        str "crm", str "erp"]))),
    .cat (str "algún parte ") (alts [str "abierto", str "pendiente", str "activo"])]),
    20, ("internal-system").data⟩,
  -- /\(\d{6,}\)/i, 20
  ⟨unanch (.cat (chr '(') (.cat (atLeast digitCls 6) (chr ')'))),
    20, ("phone-in-parens").data⟩,
  -- /(?:me (?:manda|envía|pasa|escribe|reenvía) (?:foto|imagen|pdf|documento|audio|video|captura|mensaje))/i, 20
  ⟨unanch (.cat (str "me ") (.cat (alts [str "manda", str "envía", str "pasa",
      str "escribe", str "reenvía"])
    (.cat (str " ") (alts [str "foto", str "imagen", str "pdf", str "documento",
      str "audio", str "video", str "captura", str "mensaje"])))),
    20, ("narrating-receipt").data⟩,
  -- /(?:[Vv]eo (?:el |la |un |una |que |los |las ))/i, 15
  ⟨unanch (.cat (str "veo ") (alts [str "el ", str "la ", str "un ", str "una ",
    str "que ", str "los ", str "las "])), 15, ("narrating-observation").data⟩,
  -- /(?:como|ya que|porque) es horario (?:laboral|de cierre)/i, 25
  ⟨unanch (.cat (alts [str "como", str "ya que", str "porque"])
    (.cat (str " es horario ") (alts [str "laboral", str "de cierre"]))),
    25, ("schedule-context").data⟩,
  -- /estamos a las \d/i, 20
  ⟨unanch (.cat (str "estamos a las ") digitCls), 20, ("time-reference").data⟩,
  -- /(?:antes de (?:contestar|responder|decirle|hacer nada))/i, 25
  ⟨unanch (.cat (str "antes de ") (alts [str "contestar", str "responder",
    str "decirle", str "hacer nada"])), 25, ("before-acting").data⟩,
  -- /(?:fuera de horario|en horario laboral|en mi turno)/i, 20
  ⟨unanch (alts [str "fuera de horario", str "en horario laboral", str "en mi turno"]),
    20, ("shift-reference").data⟩,
  -- /[Pp]ero no me dice/i, 30
  ⟨unanch (str "pero no me dice"), 30, ("but-doesnt-say").data⟩,
  -- /no me (?:queda claro|especifica|indica|dice) (?:qu[eé]|por|para|c[oó]mo|si)/i, 30
  ⟨unanch (.cat (str "no me ") (.cat (alts [str "queda claro", str "especifica",
      str "indica", str "dice"])
    (.cat (str " ") (alts [.cat (str "qu") (oneOf ['e', 'é']), str "por", str "para",
      .cat (chr 'c') (.cat (oneOf ['o', 'ó']) (str "mo")), str "si"])))),
    30, ("unclear-intent").data⟩,
  -- /(?:^|\. )(?:Busco|Miro|Compruebo|Verifico|Reviso|Ejecuto) /i, 20
  ⟨startOrDot (.cat (alts [str "busco", str "miro", str "compruebo",
    str "verifico", str "reviso", str "ejecuto"]) (str " ")),
    20, ("narrating-action").data⟩,
  -- /(?:^|\. )(?:Buscando|Mirando|Comprobando|Verificando|Revisando|Ejecutando) /i, 20
  ⟨startOrDot (.cat (alts [str "buscando", str "mirando", str "comprobando",
    str "verificando", str "revisando", str "ejecutando"]) (str " ")),
    20, ("narrating-gerund").data⟩,
  -- /^(?:Le pregunto |Le voy a preguntar|Pregunto |Consulto )/i, 30
  ⟨anchStart (alts [str "le pregunto ", str "le voy a preguntar", str "pregunto ",
    str "consulto "]), 30, ("planning-ask").data⟩,
  -- /(?:Le pregunto (?:para|a ver|si|directamente)|Le confirmo|Le digo).*:$/i, 35
  ⟨anchEnd (.cat (alts [.cat (str "le pregunto ") (alts [str "para", str "a ver",
      str "si", str "directamente"]), str "le confirmo", str "le digo"])
    (.cat (.star dot) (chr ':'))), 35, ("trailing-thought").data⟩,
  -- /(?:\.\s*|;\s*|–\s*|-\s*)Voy a (?:buscar|mirar|comprobar|verificar|revisar|preguntar|consultar)/i, 30
  ⟨unanch (.cat (alts [.cat (chr '.') (.star wsCls), .cat (chr ';') (.star wsCls),
      .cat (chr '–') (.star wsCls), .cat (chr '-') (.star wsCls)])
    (.cat (str "voy a ") (alts [str "buscar", str "mirar", str "comprobar",
      str "verificar", str "revisar", str "preguntar", str "consultar"]))),
    30, ("mid-sentence-plan").data⟩,
  -- /(?:soy (?:una? )?(?:IA|inteligencia artificial|bot|asistente virtual|chatbot))/i, 50
  ⟨unanch (.cat (str "soy ") (.cat (opt (.cat (str "un") (.cat (opt (chr 'a')) (chr ' '))))
    (alts [str "ia", str "inteligencia artificial", str "bot",
      str "asistente virtual", str "chatbot"]))), 50, ("reveals-ai").data⟩,
  -- /(?:soy Claudia,? (?:la|el|del|una))/i, 15
  ⟨unanch (.cat (str "soy claudia") (.cat (opt (chr ','))
    (.cat (chr ' ') (alts [str "la", str "el", str "del", str "una"])))),
    15, ("claudia-identity").data⟩,
  -- /^(?:Let me |I'm going to |I need to |I don't have context)/i, 40
  ⟨anchStart (alts [str "let me ",
    .cat (str "i") (.cat (chr apos) (str "m going to ")),
    str "i need to ",
    .cat (str "i don") (.cat (chr apos) (str "t have context"))]),
    40, ("english-monologue").data⟩,
  -- /^(?:Looking for |Searching |Checking )/i, 30
  ⟨anchStart (alts [str "looking for ", str "searching ", str "checking "]),
    30, ("english-narration").data⟩,
  -- /(?:quiere saber|está preguntando|me está pidiendo|lo que pide es)/i, 25
  ⟨unanch (alts [str "quiere saber", str "está preguntando",
    str "me está pidiendo", str "lo que pide es"]), 25, ("meta-commentary").data⟩,
  -- /^(?:Buenas|Buenos? (?:d[ií]as|tardes|noches)|Hola|Muy buenas)/i, -50
  ⟨anchStart (alts [str "buenas",
    .cat (str "bueno") (.cat (opt (chr 's')) (.cat (chr ' ')
      (alts [.cat (chr 'd') (.cat (oneOf ['i', 'í']) (str "as")),
        str "tardes", str "noches"]))),
    str "hola", str "muy buenas"]), -50, ("greeting").data⟩,
  -- /\?/i, -15
  ⟨unanch (chr '?'), -15, ("question-mark").data⟩,
  -- /(?:^|\s)(?:te |tu |tú |ti )/i, -15
  ⟨startOrWs (alts [str "te ", str "tu ", str "tú ", str "ti "]),
    -15, ("direct-address-te").data⟩,
  -- /(?:dime|cuéntame|necesitas|pásate|cuando quieras)/i, -20
  ⟨unanch (alts [str "dime", str "cuéntame", str "necesitas", str "pásate",
    str "cuando quieras"]), -20, ("invitation").data⟩,
  -- /^.{1,25}$/i, -15
  ⟨anchBoth (between dot 1 25), -15, ("short-message").data⟩,
  -- /^(?:Ok|Vale|Dale|Sip|Perfecto|Pefecto|Genial|Entendido)/i, -40
  ⟨anchStart (alts [str "ok", str "vale", str "dale", str "sip", str "perfecto",
    str "pefecto", str "genial", str "entendido"]), -40, ("acknowledgement").data⟩,
  -- /^(?:Un momento|Dame un segundo|Ahora te |Espera un)/i, -40
  ⟨anchStart (alts [str "un momento", str "dame un segundo", str "ahora te ",
    str "espera un"]), -40, ("hold-message").data⟩,
  -- /^Es que /i, -40
  ⟨anchStart (str "es que "), -40, ("es-que").data⟩,
  -- /^Es verdad/i, -30
  ⟨anchStart (str "es verdad"), -30, ("es-verdad").data⟩,
  -- /^(?:Perdona que |Disculpa |Lo siento)/i, -30
  ⟨anchStart (alts [str "perdona que ", str "disculpa ", str "lo siento"]),
    -30, ("apology").data⟩,
  -- /(?:https?:\/\/|www\.)/i, -20
  ⟨unanch (alts [.cat (str "http") (.cat (opt (chr 's')) (str "://")), str "www."]),
    -20, ("contains-url").data⟩,
  -- /(?:\d+[.,]\d{2}\s*€|\d+\s*euros?)/i, -15
  ⟨unanch (alts [.cat (plus digitCls) (.cat (oneOf ['.', ','])
      (.cat (repN digitCls 2) (.cat (.star wsCls) (chr '€')))),
    .cat (plus digitCls) (.cat (.star wsCls) (.cat (str "euro") (opt (chr 's'))))]),
    -15, ("contains-price").data⟩]

/-! ## Thought / safe pattern registries (v1 line-filter plugin) -/

/-- The `THOUGHT_PATTERNS` array of the source, in source order. -/
def THOUGHT_PATTERNS : List Regex := [
  -- /^(?:Voy a |Estoy |Necesito |Tengo que |Debo |Ahora (?:voy|tengo|necesito|busco|lo pillo|entiendo))/i
  anchStart (alts [str "voy a ", str "estoy ", str "necesito ", str "tengo que ",
    str "debo ", .cat (str "ahora ") (alts [str "voy", str "tengo", str "necesito",
      str "busco", str "lo pillo", str "entiendo"])]),
  -- /^(?:No tengo contexto|Sin contexto|No reconozco|No s[eé] qui[eé]n|Me falta)/i
  anchStart (alts [str "no tengo contexto", str "sin contexto", str "no reconozco",
    .cat (str "no s") (.cat (oneOf ['e', 'é']) (.cat (str " qui")
      (.cat (oneOf ['e', 'é']) (str "n")))), str "me falta"]),
  -- /^(?:Sigue sin (?:tener )?sentido|No (?:me )?queda claro|No entiendo)/i
  anchStart (alts [.cat (str "sigue sin ") (.cat (opt (str "tener ")) (str "sentido")),
    .cat (str "no ") (.cat (opt (str "me ")) (str "queda claro")), str "no entiendo"]),
  -- /^(?:Le pregunto |Le voy a preguntar|Pregunto |Consulto )/i
  anchStart (alts [str "le pregunto ", str "le voy a preguntar", str "pregunto ",
    str "consulto "]),
  -- /^(?:Buscando |Mirando |Comprobando |Verificando |Revisando )/i
  anchStart (alts [str "buscando ", str "mirando ", str "comprobando ",
    str "verificando ", str "revisando "]),
  -- /^(?:L[ií]nea a[ñn]adida|Relleno |Rellenando )/i
  anchStart (alts [.cat (chr 'l') (.cat (oneOf ['i', 'í']) (.cat (str "nea a")
      (.cat (oneOf ['ñ', 'n']) (str "adida")))),
    str "relleno ", str "rellenando "]),
  -- /^(?:Bloqueado|Eso no es correcto|Me llev[oó] a otro)/i
  anchStart (alts [str "bloqueado", str "eso no es correcto",
    .cat (str "me llev") (.cat (oneOf ['o', 'ó']) (str " a otro"))]),
  -- /^Es \w+,?\s+(?:el |la |del |de la |quien |que )/i
  anchStart (.cat (str "es ") (.cat (plus wordCls) (.cat (opt (chr ','))
    (.cat (plus wsCls) (alts [str "el ", str "la ", str "del ", str "de la ",
      str "quien ", str "que "]))))),
  -- /(?:^|\. )(?:Voy a buscar|Ahora busco|Primero (?:busco|miro|compruebo|verifico))/i
  startOrDot (alts [str "voy a buscar", str "ahora busco",
    .cat (str "primero ") (alts [str "busco", str "miro", str "compruebo",
      str "verifico"])]),
  -- /(?:^|\. )(?:Ejecuto|Ejecutando|Lanzo|Lanzando) /i
  startOrDot (.cat (alts [str "ejecuto", str "ejecutando", str "lanzo",
    str "lanzando"]) (str " ")),
  -- /^(?:Para (?:esto|ello|eso)|En (?:este caso|principio)|Seg[uú]n )/i
  anchStart (alts [.cat (str "para ") (alts [str "esto", str "ello", str "eso"]),
    .cat (str "en ") (alts [str "este caso", str "principio"]),
    .cat (str "seg") (.cat (oneOf ['u', 'ú']) (str "n "))]),
  -- /^(?:Let me |I'm going to |I need to |Looking for |Searching |I don't have context)/i
  anchStart (alts [str "let me ",
    .cat (str "i") (.cat (chr apos) (str "m going to ")),
    str "i need to ", str "looking for ", str "searching ",
    .cat (str "i don") (.cat (chr apos) (str "t have context"))]),
  -- /(?:quiere saber|est[aá] preguntando|me est[aá] pidiendo|lo que pide es)/i
  unanch (alts [str "quiere saber",
    .cat (str "est") (.cat (oneOf ['a', 'á']) (str " preguntando")),
    .cat (str "me est") (.cat (oneOf ['a', 'á']) (str " pidiendo")),
    str "lo que pide es"]),
  -- /(?:Le pregunto (?:para|a ver|si)|Le confirmo|Le digo|Le respondo).*:$/i
  anchEnd (.cat (alts [.cat (str "le pregunto ") (alts [str "para", str "a ver",
      str "si"]), str "le confirmo", str "le digo", str "le respondo"])
    (.cat (.star dot) (chr ':'))),
  -- /^(?:Perdona|Corrijo|Me equivoqu[eé]|Error m[ií]o).*(?:en realidad|quer[ií]a decir|lo correcto es)/i
  anchStart (.cat (alts [str "perdona", str "corrijo",
      .cat (str "me equivoqu") (oneOf ['e', 'é']),
      .cat (str "error m") (.cat (oneOf ['i', 'í']) (str "o"))])
    (.cat (.star dot) (alts [str "en realidad",
      .cat (str "quer") (.cat (oneOf ['i', 'í']) (str "a decir")),
      str "lo correcto es"])))]

/-- The `SAFE_PATTERNS` array of the source, in source order. -/
def SAFE_PATTERNS : List Regex := [
  -- /^(?:Buenas|Buenos? (?:d[ií]as|tardes|noches)|Hola|Ok|Vale|Dale|Sip|Perfecto|Pefecto)/i
  anchStart (alts [str "buenas",
    .cat (str "bueno") (.cat (opt (chr 's')) (.cat (chr ' ')
      (alts [.cat (chr 'd') (.cat (oneOf ['i', 'í']) (str "as")),
        str "tardes", str "noches"]))),
    str "hola", str "ok", str "vale", str "dale", str "sip", str "perfecto",
    str "pefecto"]),
  -- /^(?:Dime|Cu[eé]ntame|Qu[eé] (?:tal|necesitas|pasa)|C[oó]mo (?:puedo|te))/i
  anchStart (alts [str "dime",
    .cat (str "cu") (.cat (oneOf ['e', 'é']) (str "ntame")),
    .cat (str "qu") (.cat (oneOf ['e', 'é']) (.cat (str " ")
      (alts [str "tal", str "necesitas", str "pasa"]))),
    .cat (chr 'c') (.cat (oneOf ['o', 'ó']) (.cat (str "mo ")
      (alts [str "puedo", str "te"])))]),
  -- /^(?:Perdona que (?:estaba|no te|tard[eé])|Disculpa)/i
  anchStart (alts [.cat (str "perdona que ") (alts [str "estaba", str "no te",
    .cat (str "tard") (oneOf ['e', 'é'])]), str "disculpa"]),
  -- /^(?:Un momento|Dame un segundo|Ahora te (?:miro|digo|confirmo|aviso))/i
  anchStart (alts [str "un momento", str "dame un segundo",
    .cat (str "ahora te ") (alts [str "miro", str "digo", str "confirmo",
      str "aviso"])])]

/-! ## Scoring engine -/

/-- `BLOCK_THRESHOLD` of the source. -/
def BLOCK_THRESHOLD : Int := 50

/-- Decimal rendering of an integer, as JavaScript template interpolation
prints it. -/
def intChars (i : Int) : List Char :=
  if i < 0 then '-' :: Nat.toDigits 10 i.natAbs else Nat.toDigits 10 i.natAbs

/-- The string pushed for one matched signal:
the source formats it as label, open paren, optional plus sign, score,
close paren. -/
def fmtSignal (s : Signal) : List Char :=
  s.label ++ '(' :: ((if 0 < s.score then ['+'] else []) ++ intChars s.score ++ [')'])

/-- The loop body of `scoreMessage`, generalised over the signal list it
iterates: starting from score `0` and an empty `matched` array, every
signal whose pattern tests positive on the content adds its score and
appends its formatted label. -/
def scoreMessageWith (signals : List Signal) (content : List Char) :
    Int × List (List Char) :=
  signals.foldl
    (fun acc s =>
      if reTest s.pattern content then (acc.1 + s.score, acc.2 ++ [fmtSignal s])
      else acc)
    (0, [])

/-- `scoreMessage` of the source: iterate the `SIGNALS` registry. -/
def scoreMessage (content : List Char) : Int × List (List Char) :=
  scoreMessageWith SIGNALS content

/-! ## Line classifier and redaction engine -/

/-- `isThoughtLine` of the source: trim the line; an empty trimmed line is
not a thought; any safe pattern match vetoes; otherwise the line is a
thought iff some thought pattern matches. -/
def isThoughtLine (line : List Char) : Bool :=
  let trimmed := jsTrim line
  if trimmed = [] then false
  else if SAFE_PATTERNS.any (fun p => reTest p trimmed) then false
  else THOUGHT_PATTERNS.any (fun p => reTest p trimmed)

/-- The lines the `filterThoughts` loop pushes onto `kept`, in order. -/
def keptLines (content : List Char) : List (List Char) :=
  (splitNl content).filter (fun l => !isThoughtLine l)

/-- The lines the `filterThoughts` loop pushes onto `removed`, in order. -/
def removedLines (content : List Char) : List (List Char) :=
  (splitNl content).filter (fun l => isThoughtLine l)

/-- `filterThoughts` of the source: split on line breaks, partition by
`isThoughtLine`, rejoin the kept lines and trim the result.  The first
component is `filtered`, the second `removed`. -/
def filterThoughts (content : List Char) : List Char × List (List Char) :=
  (jsTrim (joinNl (keptLines content)), removedLines content)

/-! ## Plugin hooks (decision policy) -/

/-- The verdict a `message_sending` hook can return: `{ cancel: true }` or
`{ content }`; `none` (returning `undefined`) passes the message through. -/
inductive Verdict : Type where
  | cancel : Verdict
  | replace : List Char → Verdict
deriving DecidableEq

/-- The `message_sending` hook of the v2.0 scoring plugin: skip non-WhatsApp
channels, skip missing or empty (falsy) content, cancel when the score
reaches `BLOCK_THRESHOLD`. -/
def scoringHook (channelId : List Char) (content : Option (List Char)) :
    Option Verdict :=
  if channelId ≠ ("whatsapp").data then none
  else
    match content with
    | none => none
    | some c =>
      if c = [] then none
      else if BLOCK_THRESHOLD ≤ (scoreMessage c).1 then some .cancel
      else none

/-- The `message_sending` hook of the v1 line-filter plugin: skip
non-WhatsApp channels, skip missing or empty (falsy) content; cancel when
everything was filtered out, return the cleaned content when something was
removed, otherwise no verdict. -/
def lineFilterHook (channelId : List Char) (content : Option (List Char)) :
    Option Verdict :=
  if channelId ≠ ("whatsapp").data then none
  else
    match content with
    | none => none
    | some original =>
      if original = [] then none
      else
        if (filterThoughts original).1 = [] then some .cancel
        else if (filterThoughts original).1 ≠ original then
          some (.replace (filterThoughts original).1)
        else none

/-! ## Concrete texts used by the specified scenarios -/

/-- The scenario input of the specification for the redaction strategy. -/
def pedroText : List Char :=
  ("Es Pedro, el del ordenador portátil. Voy a buscar su ficha.").data

/-! ## Scoring engine lemmas -/

/-- Closed form of the scoring fold, generalised over the accumulator. -/
theorem scoreFold_eq (content : List Char) (signals : List Signal) (a : Int)
    (m : List (List Char)) :
    signals.foldl
        (fun acc s =>
          if reTest s.pattern content then (acc.1 + s.score, acc.2 ++ [fmtSignal s])
          else acc)
        (a, m) =
      (a + ((signals.filter (fun s => reTest s.pattern content)).map Signal.score).sum,
        m ++ (signals.filter (fun s => reTest s.pattern content)).map fmtSignal) := by
  induction signals generalizing a m with
  | nil => simp
  | cons s ss ih =>
    by_cases h : reTest s.pattern content
    · simp only [List.foldl_cons, h, if_pos, List.filter_cons_of_pos, List.map_cons,
        List.sum_cons, ih]
      rw [Prod.mk.injEq]
      exact ⟨by omega, by simp⟩
    · simp only [List.foldl_cons, h, if_neg, List.filter_cons_of_neg, ih,
        Bool.false_eq_true, not_false_eq_true]

/-- Closed form of `scoreMessageWith`. -/
theorem scoreMessageWith_eq (signals : List Signal) (content : List Char) :
    scoreMessageWith signals content =
      (((signals.filter (fun s => reTest s.pattern content)).map Signal.score).sum,
        (signals.filter (fun s => reTest s.pattern content)).map fmtSignal) := by
  unfold scoreMessageWith
  rw [scoreFold_eq]
  simp

/-- C1: for every text `t`, `scoreMessage t` returns as score the sum of the
scores of exactly the signals of the `SIGNALS` registry whose pattern
matches `t`, and as matched list the formatted labels of those signals in
registry order; extending the registry with a signal whose pattern does not
match `t` leaves the score of `t` unchanged. -/
theorem c1_scoreMessage_spec (t : List Char) :
    (scoreMessage t).1 =
        ((SIGNALS.filter (fun s => reTest s.pattern t)).map Signal.score).sum
    ∧ (scoreMessage t).2 = (SIGNALS.filter (fun s => reTest s.pattern t)).map fmtSignal
    ∧ ∀ s : Signal, reTest s.pattern t = false →
        (scoreMessageWith (SIGNALS ++ [s]) t).1 = (scoreMessage t).1 := by
  refine ⟨by rw [scoreMessage, scoreMessageWith_eq], by rw [scoreMessage, scoreMessageWith_eq], ?_⟩
  intro s hs
  rw [scoreMessage, scoreMessageWith_eq, scoreMessageWith_eq, List.filter_append]
  simp [List.filter_cons, hs]

/-- Witness for C1 at a concrete text and a concrete non-matching signal. -/
theorem c1_scoreMessage_spec_witness :
    reTest Regex.emptyset (("Hola").data) = false ∧
    (scoreMessageWith (SIGNALS ++ [⟨Regex.emptyset, 99, ("extra").data⟩])
        (("Hola").data)).1 = (scoreMessage (("Hola").data)).1 :=
  ⟨by decide,
    (c1_scoreMessage_spec (("Hola").data)).2.2 ⟨Regex.emptyset, 99, ("extra").data⟩
      (by decide)⟩

/-! ## Line classifier: C2 -/

/-- C2: a line is a thought iff its trimmed form is non-empty, matches no
safe pattern, and matches at least one thought pattern; a safe-pattern
match vetoes unconditionally, and a line with empty trimmed form is never a
thought. -/
theorem c2_isThoughtLine_spec (l : List Char) :
    (isThoughtLine l = true ↔
      jsTrim l ≠ [] ∧
      SAFE_PATTERNS.any (fun p => reTest p (jsTrim l)) = false ∧
      THOUGHT_PATTERNS.any (fun p => reTest p (jsTrim l)) = true)
    ∧ (SAFE_PATTERNS.any (fun p => reTest p (jsTrim l)) = true → isThoughtLine l = false)
    ∧ (jsTrim l = [] → isThoughtLine l = false) := by
  unfold isThoughtLine
  by_cases h1 : jsTrim l = []
  · simp [h1]
  · rcases h2 : SAFE_PATTERNS.any (fun p => reTest p (jsTrim l)) <;> simp [h1, h2]

/-- Witness for C2: a greeting line is vetoed by a safe pattern, and a
whitespace-only line is never a thought. -/
theorem c2_isThoughtLine_spec_witness :
    (SAFE_PATTERNS.any (fun p => reTest p (jsTrim (("Hola, un saludo").data))) = true ∧
      isThoughtLine (("Hola, un saludo").data) = false) ∧
    (jsTrim ((" ").data) = [] ∧ isThoughtLine ((" ").data) = false) :=
  ⟨⟨by decide, (c2_isThoughtLine_spec (("Hola, un saludo").data)).2.1 (by decide)⟩,
    ⟨by decide, (c2_isThoughtLine_spec ((" ").data)).2.2 (by decide)⟩⟩

/-! ## Decision policy: C3, C4 -/

/-- C3 counterexample: for the empty text the redaction-strategy hook
returns no verdict (the falsy-content guard fires) even though
`filterThoughts` yields an empty filtered text, for which the claim demands
`Cancel`. -/
theorem c3_redaction_counterexample :
    (filterThoughts []).1 = [] ∧
    lineFilterHook (("whatsapp").data) (some []) = none :=
  ⟨by decide, by decide⟩

/-- C3 (amended): for every non-empty message text the redaction-strategy
decision is Cancel when the filtered text is empty, ReplaceContent when it
is non-empty and differs from the original, and no verdict when it equals
the original.  (The empty text is instead caught by the falsy-content
guard and passes through.) -/
theorem c3_redactionStrategy (t : List Char) (h : t ≠ []) :
    lineFilterHook (("whatsapp").data) (some t) =
      (if (filterThoughts t).1 = [] then some Verdict.cancel
       else if (filterThoughts t).1 ≠ t then some (Verdict.replace (filterThoughts t).1)
       else none) := by
  unfold lineFilterHook
  simp [h]

/-- Witness for C3 at a concrete non-empty text. -/
theorem c3_redactionStrategy_witness :
    ("Hola").data ≠ ([] : List Char) ∧
    lineFilterHook (("whatsapp").data) (some (("Hola").data)) =
      (if (filterThoughts (("Hola").data)).1 = [] then some Verdict.cancel
       else if (filterThoughts (("Hola").data)).1 ≠ ("Hola").data then
         some (Verdict.replace (filterThoughts (("Hola").data)).1)
       else none) :=
  ⟨by decide, c3_redactionStrategy (("Hola").data) (by decide)⟩

/-- C4: under the threshold strategy the decision on WhatsApp is Cancel
exactly when the score reaches `BLOCK_THRESHOLD`, whose default is `50`,
and no verdict (pass-through) otherwise; the scoring hook never replaces
content. -/
theorem c4_thresholdStrategy (t : List Char) :
    scoringHook (("whatsapp").data) (some t) =
      (if BLOCK_THRESHOLD ≤ (scoreMessage t).1 then some Verdict.cancel else none)
    ∧ BLOCK_THRESHOLD = 50
    ∧ ∀ (ch : List Char) (ct : Option (List Char)) (x : List Char),
        scoringHook ch ct ≠ some (Verdict.replace x) := by
  refine ⟨?_, rfl, ?_⟩
  · unfold scoringHook
    by_cases h : t = []
    · subst h
      have h0 : (scoreMessage ([] : List Char)).1 = 0 := by decide
      simp [h0, BLOCK_THRESHOLD]
    · simp [h]
  · intro ch ct x
    unfold scoringHook
    by_cases hch : ch ≠ ("whatsapp").data
    · simp [hch]
    · simp only [hch, if_false]
      match ct with
      | none => simp
      | some c =>
        by_cases hc : c = []
        · simp [hc]
        · simp only [hc, if_false]
          split <;> simp

/-! ## Redaction engine: C6, C9 -/

/-- C6 counterexample: for the one-space text the removed lines together
with the lines of the filtered text are NOT a permutation of the lines of
the original (the final trim turned the line of one space into an empty
line). -/
theorem c6_concatInvariant_counterexample :
    ¬ List.Perm
        ((filterThoughts ((" ").data)).2 ++ splitNl (filterThoughts ((" ").data)).1)
        (splitNl ((" ").data)) := by decide

/-- C6 (amended): the invariant holds before the final trim: the removed
lines together with the kept lines are a permutation of the lines of the
original text, the kept lines are a sublist of the original lines (never
reordered or edited, only deleted), and the filtered text is the
whitespace-trim of the kept lines rejoined. -/
theorem c6_concatInvariant (t : List Char) :
    List.Perm ((filterThoughts t).2 ++ keptLines t) (splitNl t)
    ∧ List.Sublist (keptLines t) (splitNl t)
    ∧ (filterThoughts t).1 = jsTrim (joinNl (keptLines t)) := by
  refine ⟨?_, List.filter_sublist _, rfl⟩
  simpa [filterThoughts, removedLines, keptLines] using
    List.filter_append_perm (fun l => isThoughtLine l) (splitNl t)

/-- C9 counterexample: the scenario input contains no line break, so the
engine splits it into one single line, not two. -/
theorem c9_scenario_counterexample :
    (splitNl pedroText).length = 1 ∧ (splitNl pedroText).length ≠ 2 :=
  ⟨by decide, by decide⟩

/-- C9 (amended): the scenario input is handled as a single line; that line
is classified as a thought and removed, the filtered text is empty, and
the redaction-strategy decision is Cancel. -/
theorem c9_scenario :
    splitNl pedroText = [pedroText]
    ∧ isThoughtLine pedroText = true
    ∧ filterThoughts pedroText = ([], [pedroText])
    ∧ lineFilterHook (("whatsapp").data) (some pedroText) = some Verdict.cancel :=
  ⟨by decide, by decide, by decide, by decide⟩

/-! ## Hook guards: C8, C10 -/

/-- C8: a missing or empty message body is never answered with a verdict:
both hooks decline to act on `none` and on the empty string, on every
channel. -/
theorem c8_emptyBody_noVerdict (ch : List Char) :
    scoringHook ch none = none ∧ lineFilterHook ch none = none ∧
    scoringHook ch (some []) = none ∧ lineFilterHook ch (some []) = none := by
  unfold scoringHook lineFilterHook
  by_cases h : ch = ("whatsapp").data <;> simp [h]

/-- C10: on any channel other than WhatsApp both hooks return no verdict,
whatever the content. -/
theorem c10_nonWhatsapp_passthrough (ch : List Char) (ct : Option (List Char))
    (h : ch ≠ ("whatsapp").data) :
    scoringHook ch ct = none ∧ lineFilterHook ch ct = none := by
  unfold scoringHook lineFilterHook
  simp [h]

/-- Witness for C10 on the telegram channel with thought-like content. -/
theorem c10_nonWhatsapp_passthrough_witness :
    ("telegram").data ≠ ("whatsapp").data ∧
    scoringHook (("telegram").data) (some (("Voy a mirar la BD").data)) = none ∧
    lineFilterHook (("telegram").data) (some (("Voy a mirar la BD").data)) = none :=
  ⟨by decide,
    (c10_nonWhatsapp_passthrough (("telegram").data)
      (some (("Voy a mirar la BD").data)) (by decide)).1,
    (c10_nonWhatsapp_passthrough (("telegram").data)
      (some (("Voy a mirar la BD").data)) (by decide)).2⟩

/-! ## Line-splitting lemmas (towards C7) -/

/-- Unfolding equation for `splitNl` on a cons. -/
theorem splitNl_cons (c : Char) (cs : List Char) :
    splitNl (c :: cs) =
      match splitNl cs with
      | [] => [[c]]
      | l :: ls => if c = '\n' then [] :: l :: ls else (c :: l) :: ls := rfl

/-- Splitting never yields the empty list of lines. -/
theorem splitNl_ne_nil (s : List Char) : splitNl s ≠ [] := by
  cases s with
  | nil => simp [splitNl]
  | cons c cs =>
    rw [splitNl_cons]
    rcases splitNl cs with _ | ⟨l, ls⟩
    · simp
    · by_cases h : c = '\n' <;> simp [h]

/-- Splitting a text that starts with a line break. -/
theorem splitNl_cons_nl (cs l : List Char) (ls : List (List Char))
    (hs : splitNl cs = l :: ls) : splitNl ('\n' :: cs) = [] :: l :: ls := by
  rw [splitNl_cons, hs]
  simp

/-- Splitting a text that starts with an ordinary character. -/
theorem splitNl_cons_ch (c : Char) (hc : c ≠ '\n') (cs l : List Char)
    (ls : List (List Char)) (hs : splitNl cs = l :: ls) :
    splitNl (c :: cs) = (c :: l) :: ls := by
  rw [splitNl_cons, hs]
  simp [hc]

/-- No line produced by `splitNl` contains a line break. -/
theorem noNl_of_mem_splitNl (s : List Char) :
    ∀ l ∈ splitNl s, ('\n' : Char) ∉ l := by
  induction s with
  | nil =>
    intro l hl
    simp [splitNl] at hl
    simp [hl]
  | cons c cs ih =>
    intro l hl
    rcases hs : splitNl cs with _ | ⟨m, ms⟩
    · exact absurd hs (splitNl_ne_nil cs)
    · by_cases hc : c = '\n'
      · subst hc
        rw [splitNl_cons_nl cs m ms hs] at hl
        rcases List.mem_cons.mp hl with hl | hl
        · simp [hl]
        · exact ih l (hs ▸ hl)
      · rw [splitNl_cons_ch c hc cs m ms hs] at hl
        rcases List.mem_cons.mp hl with hl | hl
        · subst hl
          intro hmem
          rcases List.mem_cons.mp hmem with hmem | hmem
          · exact hc (by simpa using hmem.symm)
          · exact ih m (hs ▸ List.mem_cons_self m ms) hmem
        · exact ih l (hs ▸ List.mem_cons_of_mem m hl)

/-- Rejoining the split lines reconstructs the text. -/
theorem joinNl_splitNl (s : List Char) : joinNl (splitNl s) = s := by
  induction s with
  | nil => rfl
  | cons c cs ih =>
    rcases hs : splitNl cs with _ | ⟨l, ls⟩
    · exact absurd hs (splitNl_ne_nil cs)
    · rw [hs] at ih
      by_cases hc : c = '\n'
      · subst hc
        rw [splitNl_cons_nl cs l ls hs]
        show ([] : List Char) ++ '\n' :: joinNl (l :: ls) = '\n' :: cs
        simp [ih]
      · rw [splitNl_cons_ch c hc cs l ls hs]
        rcases ls with _ | ⟨m, ms⟩
        · show c :: l = c :: cs
          rw [show joinNl [l] = l from rfl] at ih
          rw [ih]
        · show c :: (l ++ '\n' :: joinNl (m :: ms)) = c :: cs
          rw [show l ++ '\n' :: joinNl (m :: ms) = joinNl (l :: m :: ms) from rfl, ih]

/-- A text without line breaks splits into itself as single line. -/
theorem splitNl_of_noNl (l : List Char) (h : ('\n' : Char) ∉ l) :
    splitNl l = [l] := by
  induction l with
  | nil => rfl
  | cons c cs ih =>
    have hc : c ≠ '\n' := fun hc => h (hc ▸ List.mem_cons_self c cs)
    have hcs : ('\n' : Char) ∉ cs := fun hm => h (List.mem_cons_of_mem c hm)
    rw [splitNl_cons_ch c hc cs cs [] (ih hcs)]

/-- Splitting a text of the form `l ++ "\n" ++ x` where `l` has no line
break peels off `l` as the first line. -/
theorem splitNl_append_nl (l x : List Char) (h : ('\n' : Char) ∉ l) :
    splitNl (l ++ '\n' :: x) = l :: splitNl x := by
  induction l with
  | nil =>
    rcases hs : splitNl x with _ | ⟨m, ms⟩
    · exact absurd hs (splitNl_ne_nil x)
    · rw [List.nil_append, splitNl_cons_nl x m ms hs]
  | cons c cs ih =>
    have hc : c ≠ '\n' := fun hc => h (hc ▸ List.mem_cons_self c cs)
    have hcs : ('\n' : Char) ∉ cs := fun hm => h (List.mem_cons_of_mem c hm)
    rw [List.cons_append, splitNl_cons_ch c hc (cs ++ '\n' :: x) cs (splitNl x) (ih hcs)]

/-- Splitting the join of a non-empty list of break-free lines restores the
lines. -/
theorem splitNl_joinNl (k : List (List Char)) (hk : k ≠ [])
    (hnl : ∀ l ∈ k, ('\n' : Char) ∉ l) : splitNl (joinNl k) = k := by
  induction k with
  | nil => exact absurd rfl hk
  | cons l ls ih =>
    rcases ls with _ | ⟨m, ms⟩
    · show splitNl l = [l]
      exact splitNl_of_noNl l (hnl l (List.mem_cons_self l []))
    · show splitNl (l ++ '\n' :: joinNl (m :: ms)) = l :: m :: ms
      rw [splitNl_append_nl l _ (hnl l (List.mem_cons_self l (m :: ms)))]
      rw [ih (by simp) (fun a ha => hnl a (List.mem_cons_of_mem l ha))]

/-! ## Trim lemmas (towards C7) -/

/-- Trimming ignores a leading whitespace character. -/
theorem jsTrim_cons_ws (c : Char) (s : List Char) (hc : jsWs c = true) :
    jsTrim (c :: s) = jsTrim s := by
  unfold jsTrim
  simp [List.dropWhile_cons, hc]

/-- A whitespace-only suffix is invisible to the right trim. -/
theorem rdropWhile_append_ws (l b : List Char) (hb : ∀ c ∈ b, jsWs c = true) :
    List.rdropWhile jsWs (l ++ b) = List.rdropWhile jsWs l := by
  induction b using List.reverseRecOn with
  | nil => simp
  | append_singleton b c ih =>
    have hc : jsWs c = true := hb c (by simp)
    rw [← List.append_assoc, List.rdropWhile_concat_pos _ _ c hc]
    exact ih (fun a ha => hb a (by simp [ha]))

/-- `dropWhile` over an append whose first part does not vanish. -/
theorem dropWhile_append_ne_nil (p : Char → Bool) (a b : List Char)
    (h : List.dropWhile p a ≠ []) :
    List.dropWhile p (a ++ b) = List.dropWhile p a ++ b := by
  induction a with
  | nil => simp at h
  | cons c cs ih =>
    by_cases hc : p c = true
    · have h' : List.dropWhile p cs ≠ [] := by
        simpa [List.dropWhile_cons, hc] using h
      simp [List.dropWhile_cons, hc, ih h']
    · simp [List.dropWhile_cons, hc]

/-- A whitespace-only prefix is invisible to the left trim. -/
theorem dropWhile_ws_append (a x : List Char) (ha : ∀ c ∈ a, jsWs c = true) :
    List.dropWhile jsWs (a ++ x) = List.dropWhile jsWs x := by
  induction a with
  | nil => simp
  | cons c cs ih =>
    simp [List.dropWhile_cons, ha c (by simp), ih (fun d hd => ha d (by simp [hd]))]

/-- Trimming ignores a whitespace-only suffix. -/
theorem jsTrim_append_ws (l b : List Char) (hb : ∀ c ∈ b, jsWs c = true) :
    jsTrim (l ++ b) = jsTrim l := by
  by_cases h : List.dropWhile jsWs l = []
  · have hl : ∀ c ∈ l, jsWs c = true := List.dropWhile_eq_nil_iff.mp h
    have hlb : List.dropWhile jsWs (l ++ b) = [] := by
      apply List.dropWhile_eq_nil_iff.mpr
      intro c hc
      rcases List.mem_append.mp hc with hc | hc
      · exact hl c hc
      · exact hb c hc
    unfold jsTrim
    rw [h, hlb]
  · unfold jsTrim
    rw [dropWhile_append_ne_nil jsWs l b h, rdropWhile_append_ws _ _ hb]

/-- The right trim shortens a list to one of its own initial segments. -/
theorem rdropWhile_exists_append (p : Char → Bool) (d : List Char) :
    ∃ u, List.rdropWhile p d ++ u = d := by
  obtain ⟨t, ht⟩ := List.dropWhile_suffix (l := d.reverse) p
  refine ⟨t.reverse, ?_⟩
  have h2 := congrArg List.reverse ht
  rw [List.reverse_append, List.reverse_reverse] at h2
  exact h2

/-- Trimming is idempotent. -/
theorem jsTrim_idem (s : List Char) : jsTrim (jsTrim s) = jsTrim s := by
  have hdd : List.dropWhile jsWs (List.dropWhile jsWs s) = List.dropWhile jsWs s :=
    List.dropWhile_idempotent jsWs s
  obtain ⟨u, hu⟩ := rdropWhile_exists_append jsWs (List.dropWhile jsWs s)
  rcases hA : List.rdropWhile jsWs (List.dropWhile jsWs s) with _ | ⟨c, z⟩
  · rw [show jsTrim s = List.rdropWhile jsWs (List.dropWhile jsWs s) from rfl, hA]
    rfl
  · rw [show jsTrim s = List.rdropWhile jsWs (List.dropWhile jsWs s) from rfl, hA]
    have hd : List.dropWhile jsWs s = c :: (z ++ u) := by
      rw [← hu, hA]
      simp
    have h2 : List.dropWhile jsWs (c :: (z ++ u)) = c :: (z ++ u) := by
      rw [← hd]
      exact hdd
    have hc : jsWs c = false := by
      have h3 := List.dropWhile_eq_self_iff.mp h2 (by simp)
      simpa using h3
    show List.rdropWhile jsWs (List.dropWhile jsWs (c :: z)) = c :: z
    rw [List.dropWhile_cons, if_neg (by simp [hc])]
    rw [← hA]
    exact List.rdropWhile_idempotent jsWs (List.dropWhile jsWs s)

/-! ## How splitting interacts with trimming (towards C7) -/

/-- Unfolding: appending to the last of at least two lines. -/
theorem appendLast_cons₂ (x l m : List Char) (ms : List (List Char)) :
    appendLast x (l :: m :: ms) = l :: appendLast x (m :: ms) := rfl

/-- How `splitNl` acts on a snoc: a line break opens a fresh empty line,
any other character lands on the last line. -/
theorem splitNl_concat (s : List Char) (c : Char) :
    splitNl (s ++ [c]) =
      if c = '\n' then splitNl s ++ [[]] else appendLast [c] (splitNl s) := by
  induction s with
  | nil =>
    by_cases h : c = '\n'
    · subst h
      rw [if_pos rfl, show ([] : List Char) ++ ['\n'] = '\n' :: [] from rfl,
        splitNl_cons_nl [] [] [] rfl]
      rfl
    · rw [if_neg h, show ([] : List Char) ++ [c] = c :: [] from rfl,
        splitNl_cons_ch c h [] [] [] rfl]
      rfl
  | cons d s ih =>
    rcases hs : splitNl s with _ | ⟨l, ls⟩
    · exact absurd hs (splitNl_ne_nil s)
    · by_cases h : c = '\n'
      · subst h
        rw [if_pos rfl] at ih ⊢
        rw [hs] at ih
        by_cases hd : d = '\n'
        · subst hd
          rw [show ('\n' :: s) ++ ['\n'] = '\n' :: (s ++ ['\n']) from rfl,
            splitNl_cons_nl (s ++ ['\n']) l (ls ++ [[]]) (by rw [ih]; rfl),
            splitNl_cons_nl s l ls hs]
          rfl
        · rw [show (d :: s) ++ ['\n'] = d :: (s ++ ['\n']) from rfl,
            splitNl_cons_ch d hd (s ++ ['\n']) l (ls ++ [[]]) (by rw [ih]; rfl),
            splitNl_cons_ch d hd s l ls hs]
          rfl
      · rw [if_neg h] at ih ⊢
        rw [hs] at ih
        by_cases hd : d = '\n'
        · subst hd
          rcases ls with _ | ⟨m, ms⟩
          · rw [show ('\n' :: s) ++ [c] = '\n' :: (s ++ [c]) from rfl,
              splitNl_cons_nl (s ++ [c]) (l ++ [c]) [] (by rw [ih]; rfl),
              splitNl_cons_nl s l [] hs]
            rfl
          · rw [show ('\n' :: s) ++ [c] = '\n' :: (s ++ [c]) from rfl,
              splitNl_cons_nl (s ++ [c]) l (appendLast [c] (m :: ms)) (by rw [ih]; rfl),
              splitNl_cons_nl s l (m :: ms) hs]
            rfl
        · rcases ls with _ | ⟨m, ms⟩
          · rw [show (d :: s) ++ [c] = d :: (s ++ [c]) from rfl,
              splitNl_cons_ch d hd (s ++ [c]) (l ++ [c]) [] (by rw [ih]; rfl),
              splitNl_cons_ch d hd s l [] hs]
            rfl
          · rw [show (d :: s) ++ [c] = d :: (s ++ [c]) from rfl,
              splitNl_cons_ch d hd (s ++ [c]) l (appendLast [c] (m :: ms)) (by rw [ih]; rfl),
              splitNl_cons_ch d hd s l (m :: ms) hs]
            rfl

/-- Every line keeps a trim-equal representative when a whitespace-only
string is appended to the last line. -/
theorem appendLast_mate (x : List Char) (hx : ∀ a ∈ x, jsWs a = true) :
    ∀ ls : List (List Char), ∀ l ∈ ls, ∃ L ∈ appendLast x ls, jsTrim l = jsTrim L := by
  intro ls
  induction ls with
  | nil =>
    intro l hl
    exact absurd hl (List.not_mem_nil l)
  | cons m ms ih =>
    intro l hl
    rcases ms with _ | ⟨m₂, ms₂⟩
    · have hlm : l = m := by simpa using hl
      subst hlm
      exact ⟨l ++ x, by simp [appendLast], (jsTrim_append_ws l x hx).symm⟩
    · rcases List.mem_cons.mp hl with hlm | hlm
      · subst hlm
        exact ⟨l, by rw [appendLast_cons₂]; exact List.mem_cons_self _ _, rfl⟩
      · obtain ⟨L, hL, he⟩ := ih l hlm
        exact ⟨L, by rw [appendLast_cons₂]; exact List.mem_cons_of_mem m hL, he⟩

/-- Every line of `s` keeps a trim-equal representative among the lines of
`s` extended by one whitespace character. -/
theorem mate_concat (s : List Char) (c : Char) (hc : jsWs c = true) :
    ∀ l ∈ splitNl s, ∃ L ∈ splitNl (s ++ [c]), jsTrim l = jsTrim L := by
  intro l hl
  rw [splitNl_concat]
  by_cases hcn : c = '\n'
  · rw [if_pos hcn]
    exact ⟨l, List.mem_append_left _ hl, rfl⟩
  · rw [if_neg hcn]
    refine appendLast_mate [c] ?_ (splitNl s) l hl
    intro a ha
    rw [List.mem_singleton] at ha
    rw [ha]
    exact hc

/-- Every line of the left-trimmed text is trim-equal to a line of the
original text. -/
theorem mates_dropWhile (s : List Char) :
    ∀ l' ∈ splitNl (List.dropWhile jsWs s), ∃ l ∈ splitNl s, jsTrim l' = jsTrim l := by
  induction s with
  | nil =>
    intro l' h
    exact ⟨l', h, rfl⟩
  | cons c cs ih =>
    by_cases hc : jsWs c = true
    · rw [List.dropWhile_cons, if_pos hc]
      intro l' hl'
      obtain ⟨l, hl, he⟩ := ih l' hl'
      rcases hs : splitNl cs with _ | ⟨m, ms⟩
      · exact absurd hs (splitNl_ne_nil cs)
      · rw [hs] at hl
        by_cases hcn : c = '\n'
        · subst hcn
          rw [splitNl_cons_nl cs m ms hs]
          exact ⟨l, List.mem_cons_of_mem [] hl, he⟩
        · rw [splitNl_cons_ch c hcn cs m ms hs]
          rcases List.mem_cons.mp hl with hlm | hlm
          · subst hlm
            refine ⟨c :: l, List.mem_cons_self _ _, ?_⟩
            rw [jsTrim_cons_ws c l hc]
            exact he
          · exact ⟨l, List.mem_cons_of_mem (c :: m) hlm, he⟩
    · rw [List.dropWhile_cons, if_neg hc]
      intro l' hl'
      exact ⟨l', hl', rfl⟩

/-- Every line of the right-trimmed text is trim-equal to a line of the
original text. -/
theorem mates_rdropWhile (s : List Char) :
    ∀ l' ∈ splitNl (List.rdropWhile jsWs s), ∃ l ∈ splitNl s, jsTrim l' = jsTrim l := by
  induction s using List.reverseRecOn with
  | nil =>
    intro l' h
    exact ⟨l', h, rfl⟩
  | append_singleton s c ih =>
    by_cases hc : jsWs c = true
    · rw [List.rdropWhile_concat_pos _ _ c hc]
      intro l' hl'
      obtain ⟨l, hl, he⟩ := ih l' hl'
      obtain ⟨L, hL, heL⟩ := mate_concat s c hc l hl
      exact ⟨L, hL, he.trans heL⟩
    · rw [List.rdropWhile_concat_neg _ _ c hc]
      intro l' hl'
      exact ⟨l', hl', rfl⟩

/-- Every line of the trimmed text is trim-equal to a line of the original
text. -/
theorem mates_jsTrim (s : List Char) :
    ∀ l' ∈ splitNl (jsTrim s), ∃ l ∈ splitNl s, jsTrim l' = jsTrim l := by
  intro l' hl'
  obtain ⟨m, hm, he⟩ := mates_rdropWhile (List.dropWhile jsWs s) l' hl'
  obtain ⟨l, hl, he2⟩ := mates_dropWhile s m hm
  exact ⟨l, hl, he.trans he2⟩

/-- The classifier only looks at the trimmed line. -/
theorem isThoughtLine_congr (l l' : List Char) (h : jsTrim l = jsTrim l') :
    isThoughtLine l = isThoughtLine l' := by
  unfold isThoughtLine
  rw [h]

/-- C7: `filterThoughts` is idempotent on its own output under the
line-level strategy: filtering the filtered text changes nothing. -/
theorem c7_filterThoughts_idem (t : List Char) :
    (filterThoughts (filterThoughts t).1).1 = (filterThoughts t).1 := by
  by_cases hk : keptLines t = []
  · have h1 : (filterThoughts t).1 = [] := by
      show jsTrim (joinNl (keptLines t)) = []
      rw [hk]
      rfl
    rw [h1]
    decide
  · have hthought : ∀ l ∈ keptLines t, isThoughtLine l = false := by
      intro l hl
      have h2 := (List.mem_filter.mp hl).2
      simpa using h2
    have hnl : ∀ l ∈ keptLines t, ('\n' : Char) ∉ l := fun l hl =>
      noNl_of_mem_splitNl t l (List.mem_filter.mp hl).1
    have hsplit : splitNl (joinNl (keptLines t)) = keptLines t :=
      splitNl_joinNl (keptLines t) hk hnl
    have hlines : ∀ l' ∈ splitNl ((filterThoughts t).1), isThoughtLine l' = false := by
      intro l' hl'
      obtain ⟨m, hm, he⟩ := mates_jsTrim (joinNl (keptLines t)) l' hl'
      rw [hsplit] at hm
      rw [isThoughtLine_congr l' m he]
      exact hthought m hm
    have hkept2 : keptLines ((filterThoughts t).1) = splitNl ((filterThoughts t).1) := by
      unfold keptLines
      apply List.filter_eq_self.mpr
      intro l hl
      simp [hlines l hl]
    show jsTrim (joinNl (keptLines ((filterThoughts t).1))) = (filterThoughts t).1
    rw [hkept2, joinNl_splitNl]
    show jsTrim (jsTrim (joinNl (keptLines t))) = jsTrim (joinNl (keptLines t))
    exact jsTrim_idem _

end ThoughtFilter
